import Mathlib

set_option autoImplicit false

namespace Djaja

/-!
Shallow embedding of the Djaja Tauri backend, translated from
src-tauri/src/serial.rs and src-tauri/src/server.rs.

Interactions with the operating system (the serialport crate, std::io,
std::process) are modelled as explicit oracle arguments: each operation
receives the outcome the OS would produce for the calls it makes, and the
Lean function computes exactly what the Rust code does with that outcome.
The Mutex around the shared state is modelled by passing the protected
state explicitly (each command runs under the lock, so it sees and
produces a single consistent state).
-/

/-- An open OS serial handle (the `Box<dyn SerialPort>` returned by
`serialport::...::open()`); opaque to the registry, which only stores it. -/
abbrev SerialHandle := Nat

/-- serial.rs `PortInfo`. -/
structure PortInfo where
  name : String
  port_type : String
  description : Option String
deriving DecidableEq

/-- serial.rs `SerialConfig`. `baud_rate` is a `u32` and `data_bits`,
`stop_bits` are `u8` in the source; they are modelled as `Nat` (no
arithmetic is ever performed on them, they are only compared and stored). -/
structure SerialConfig where
  baud_rate : Nat
  data_bits : Nat
  stop_bits : Nat
  parity : String
deriving DecidableEq

/-- The `serialport::Parity` enumeration. -/
inductive Parity where
  | none
  | odd
  | even
deriving DecidableEq

/-- The `serialport::StopBits` enumeration. -/
inductive StopBits where
  | one
  | two
deriving DecidableEq

/-- The `serialport::DataBits` enumeration. -/
inductive DataBits where
  | five
  | six
  | seven
  | eight
deriving DecidableEq

/-- The registry map owned by `SerialManager` (`HashMap<String,
Box<dyn SerialPort>>`), modelled as an association list. -/
abbrev PortMap := List (String × SerialHandle)

/-- Rust `HashMap::contains_key` on the registry. -/
def containsKey (ports : PortMap) (name : String) : Bool :=
  ports.any (fun q => decide (q.1 = name))

/-- Rust `HashMap::insert`: replaces the value if the key is present, otherwise
adds a new entry. -/
def hmInsert (ports : PortMap) (name : String) (handle : SerialHandle) : PortMap :=
  if containsKey ports name then
    ports.map (fun q => if q.1 = name then (name, handle) else q)
  else
    (name, handle) :: ports

/-- Rust `HashMap::remove`: drops the entry with the given key. -/
def hmRemove (ports : PortMap) (name : String) : PortMap :=
  ports.filter (fun q => decide (q.1 ≠ name))

/-- The `match config.parity.as_str()` translation in `open_serial_port`
(serial.rs lines 79-84): unrecognized strings fall back to `Parity::None`. -/
def toParity (p : String) : Parity :=
  if p = "none" then Parity.none
  else if p = "odd" then Parity.odd
  else if p = "even" then Parity.even
  else Parity.none

/-- The `match config.stop_bits` translation in `open_serial_port`
(serial.rs lines 86-90): values other than 1 and 2 fall back to
`StopBits::One`. -/
def toStopBits (n : Nat) : StopBits :=
  if n = 1 then StopBits.one
  else if n = 2 then StopBits.two
  else StopBits.one

/-- The `match config.data_bits` translation in `open_serial_port`
(serial.rs lines 92-98): values other than 5, 6, 7, 8 fall back to
`DataBits::Eight`. -/
def toDataBits (n : Nat) : DataBits :=
  if n = 5 then DataBits.five
  else if n = 6 then DataBits.six
  else if n = 7 then DataBits.seven
  else if n = 8 then DataBits.eight
  else DataBits.eight

/-- The request `open_serial_port` hands to the OS driver: the
`serialport::new(&port_name, config.baud_rate)` builder chain with its
fixed 100ms timeout and the translated framing parameters
(serial.rs lines 100-105). -/
structure OpenRequest where
  portName : String
  baudRate : Nat
  timeoutMs : Nat
  dataBits : DataBits
  stopBits : StopBits
  parity : Parity
deriving DecidableEq

/-- Builds the OS open request exactly as `open_serial_port` does:
the baud rate is passed through verbatim and the timeout is hard-coded
to 100 milliseconds. -/
def buildOpenRequest (port_name : String) (config : SerialConfig) : OpenRequest :=
  { portName := port_name
    baudRate := config.baud_rate
    timeoutMs := 100
    dataBits := toDataBits config.data_bits
    stopBits := toStopBits config.stop_bits
    parity := toParity config.parity }

/-- serial.rs `open_serial_port`. `osOpen` is the OS driver: given the
built request it either yields an open handle or an error message
(the `.open().map_err(...)` call). Returns the command result together
with the registry state after the call. -/
def open_serial_port (osOpen : OpenRequest → Except String SerialHandle)
    (port_name : String) (config : SerialConfig) (ports : PortMap) :
    Except String String × PortMap :=
  if containsKey ports port_name then
    (Except.error "Port is already open", ports)
  else
    match osOpen (buildOpenRequest port_name config) with
    | Except.error e => (Except.error ("Failed to open port: " ++ e), ports)
    | Except.ok handle =>
        (Except.ok ("Port " ++ port_name ++ " opened successfully"),
         hmInsert ports port_name handle)

/-- serial.rs `close_serial_port`: `ports.remove(&port_name)` and branch
on whether an entry was actually removed. -/
def close_serial_port (port_name : String) (ports : PortMap) :
    Except String String × PortMap :=
  if containsKey ports port_name then
    (Except.ok ("Port " ++ port_name ++ " closed successfully"),
     hmRemove ports port_name)
  else
    (Except.error "Port not found or already closed", ports)

/-- Rust `data.as_bytes()`: the UTF-8 bytes of a Rust `String`. -/
def strBytes (s : String) : List Nat :=
  s.toUTF8.toList.map (fun b => b.toNat)

/-- serial.rs `write_serial_data`. `osWrite` is the OS-level
`port.write(bytes)` call: it receives the full byte buffer and yields the
count of bytes it accepted, or an error. `osFlush` is the outcome of
`port.flush()`. The registry map itself is not modified (`get_mut` only
touches the boxed handle). -/
def write_serial_data (osWrite : List Nat → Except String Nat)
    (osFlush : Except String Unit)
    (port_name : String) (data : String) (ports : PortMap) : Except String Nat :=
  if containsKey ports port_name then
    match osWrite (strBytes data) with
    | Except.error e => Except.error ("Failed to write to port: " ++ e)
    | Except.ok written =>
        match osFlush with
        | Except.error e => Except.error ("Failed to flush port: " ++ e)
        | Except.ok _ => Except.ok written
  else
    Except.error "Port not open"

/-- Outcome of the OS-level `port.read(&mut buffer)` call in
`read_serial_data`: either some bytes were placed at the front of the
buffer, or the fixed timeout elapsed with nothing available
(`ErrorKind::TimedOut`), or another I/O error occurred. -/
inductive OsReadResult where
  | ok (data : List Nat)
  | timedOut
  | err (reason : String)

/-- The replacement character U+FFFD used by lossy UTF-8 decoding. -/
def replacementChar : Char := Char.ofNat 0xFFFD

/-- Is `b` a UTF-8 continuation byte (0x80..=0xBF)? -/
def isCont (b : Nat) : Prop := 0x80 ≤ b ∧ b ≤ 0xBF

instance (b : Nat) : Decidable (isCont b) := by
  unfold isCont
  infer_instance

/-- Worker for `utf8Lossy`, fuelled by the length of the byte list (each
step consumes at least one byte). Implements the decoding loop of Rust
`String::from_utf8_lossy`: valid UTF-8 sequences decode to their scalar
value; an invalid maximal subpart is consumed and replaced by one U+FFFD. -/
def utf8LossyAux : Nat → List Nat → List Char
  | 0, _ => []
  | _, [] => []
  | fuel + 1, b :: rest =>
    if b ≤ 0x7F then
      Char.ofNat b :: utf8LossyAux fuel rest
    else if 0xC2 ≤ b ∧ b ≤ 0xDF then
      match rest with
      | [] => [replacementChar]
      | c1 :: rest1 =>
        if isCont c1 then
          Char.ofNat ((b - 0xC0) * 0x40 + (c1 - 0x80)) :: utf8LossyAux fuel rest1
        else
          replacementChar :: utf8LossyAux fuel rest
    else if 0xE0 ≤ b ∧ b ≤ 0xEF then
      match rest with
      | [] => [replacementChar]
      | c1 :: rest1 =>
        if (b = 0xE0 ∧ 0xA0 ≤ c1 ∧ c1 ≤ 0xBF) ∨
           (b = 0xED ∧ 0x80 ≤ c1 ∧ c1 ≤ 0x9F) ∨
           (b ≠ 0xE0 ∧ b ≠ 0xED ∧ isCont c1) then
          match rest1 with
          | [] => [replacementChar]
          | c2 :: rest2 =>
            if isCont c2 then
              Char.ofNat ((b - 0xE0) * 0x1000 + (c1 - 0x80) * 0x40 + (c2 - 0x80)) ::
                utf8LossyAux fuel rest2
            else
              replacementChar :: utf8LossyAux fuel rest1
        else
          replacementChar :: utf8LossyAux fuel rest
    else if 0xF0 ≤ b ∧ b ≤ 0xF4 then
      match rest with
      | [] => [replacementChar]
      | c1 :: rest1 =>
        if (b = 0xF0 ∧ 0x90 ≤ c1 ∧ c1 ≤ 0xBF) ∨
           (b = 0xF4 ∧ 0x80 ≤ c1 ∧ c1 ≤ 0x8F) ∨
           (b ≠ 0xF0 ∧ b ≠ 0xF4 ∧ isCont c1) then
          match rest1 with
          | [] => [replacementChar]
          | c2 :: rest2 =>
            if isCont c2 then
              match rest2 with
              | [] => [replacementChar]
              | c3 :: rest3 =>
                if isCont c3 then
                  Char.ofNat ((b - 0xF0) * 0x40000 + (c1 - 0x80) * 0x1000 +
                      (c2 - 0x80) * 0x40 + (c3 - 0x80)) :: utf8LossyAux fuel rest3
                else
                  replacementChar :: utf8LossyAux fuel rest2
            else
              replacementChar :: utf8LossyAux fuel rest1
        else
          replacementChar :: utf8LossyAux fuel rest
    else
      replacementChar :: utf8LossyAux fuel rest

/-- Rust `String::from_utf8_lossy`: decode a byte sequence as UTF-8,
replacing each maximal invalid subpart with U+FFFD. -/
def utf8Lossy (bytes : List Nat) : String :=
  String.mk (utf8LossyAux bytes.length bytes)

/-- serial.rs `read_serial_data`. The buffer is `vec![0u8; buffer_size]`;
on a successful OS read the bytes read sit at its front and
`buffer[..bytes_read]` is decoded with `String::from_utf8_lossy`; a
`TimedOut` error is converted to an empty success; any other error is
reported. The registry map is not modified. -/
def read_serial_data (osRead : OsReadResult)
    (port_name : String) (buffer_size : Nat) (ports : PortMap) :
    Except String String :=
  if containsKey ports port_name then
    match osRead with
    | OsReadResult.ok data =>
        Except.ok (utf8Lossy
          ((data ++ List.replicate (buffer_size - data.length) 0).take data.length))
    | OsReadResult.timedOut => Except.ok ""
    | OsReadResult.err e => Except.error ("Failed to read from port: " ++ e)
  else
    Except.error "Port not open"

/-- serial.rs `get_available_baud_rates`: the fixed advisory catalog. -/
def get_available_baud_rates : List Nat :=
  [300, 1200, 2400, 4800, 9600, 19200, 38400, 57600, 115200, 230400, 460800, 921600]

/-- The `serialport::SerialPortType` enumeration as reported by
`serialport::available_ports`. Only the manufacturer field of
`UsbPortInfo` is consumed by this code. -/
inductive SerialPortKind where
  | usbPort (manufacturer : Option String)
  | bluetoothPort
  | pciPort
  | unknown
deriving DecidableEq

/-- One entry of the `serialport::available_ports()` result. -/
structure OsPortEntry where
  port_name : String
  kind : SerialPortKind
deriving DecidableEq

/-- One step of Rust `char::escape_debug` on the ASCII range, where its
printability classification is fully determined: `\0`, `\t`, `\r`, `\n`,
backslash and double quote get their two-character escapes, the remaining
control characters (below 0x20, and 0x7F) print as a lowercase-hex
Unicode escape, and the printable characters 0x20-0x7E pass through
unchanged. On code points above 0x7F the real `escape_debug` consults
Unicode printability and grapheme-extension tables that live in the Rust
standard library, not in this repository, so this concrete fragment is
not meaningful there; it is used only to instantiate examples on ASCII
strings, and the theorems about `list_serial_ports` quantify over the
escape function instead of fixing this one. -/
def asciiEscapeDebug (c : Char) : List Char :=
  if c = Char.ofNat 0 then ['\\', '0']
  else if c = '\t' then ['\\', 't']
  else if c = '\r' then ['\\', 'r']
  else if c = '\n' then ['\\', 'n']
  else if c = '\\' then ['\\', '\\']
  else if c = '\"' then ['\\', '\"']
  else if c.toNat < 0x20 ∨ c.toNat = 0x7F then
    ['\\', 'u', Char.ofNat 123] ++ Nat.toDigits 16 c.toNat ++ [Char.ofNat 125]
  else [c]

/-- Rust `{:?}` (Debug) formatting of a string: the contents wrapped in
double quotes, each character rendered by `char::escape_debug`. The
per-character escape function is taken as the `charEscape` argument,
because its Unicode printability and grapheme-extension tables are
standard-library data external to this program; `asciiEscapeDebug` is
its ASCII fragment. -/
def debugFmt (charEscape : Char → List Char) (s : String) : String :=
  String.mk ('\"' :: s.data.foldr (fun c acc => charEscape c ++ acc) ['\"'])

/-- The `port_type` string computed by `list_serial_ports`
(serial.rs lines 42-47). -/
def classifyPort : SerialPortKind → String
  | SerialPortKind.usbPort _ => "USB"
  | SerialPortKind.bluetoothPort => "Bluetooth"
  | SerialPortKind.pciPort => "PCI"
  | SerialPortKind.unknown => "Unknown"

/-- The `description` computed by `list_serial_ports`
(serial.rs lines 52-58): only USB ports get one, built with
`format!("USB Device - Manufacturer: {:?}", manufacturer.unwrap_or("Unknown"))`.
`charEscape` is the standard library's `char::escape_debug` step used by
the `{:?}` formatting. -/
def describePort (charEscape : Char → List Char) : SerialPortKind → Option String
  | SerialPortKind.usbPort manufacturer =>
      some ("USB Device - Manufacturer: " ++
        debugFmt charEscape (manufacturer.getD "Unknown"))
  | _ => none

/-- serial.rs `list_serial_ports`. `osPorts` is the outcome of
`serialport::available_ports()` (its error already rendered by
`e.to_string()`); `charEscape` is the standard library's
`char::escape_debug` step used by the `{:?}` formatting of the USB
description. Pure with respect to the registry. -/
def list_serial_ports (charEscape : Char → List Char)
    (osPorts : Except String (List OsPortEntry)) :
    Except String (List PortInfo) :=
  match osPorts with
  | Except.error e => Except.error e
  | Except.ok ports =>
      Except.ok (ports.map (fun port =>
        { name := port.port_name
          port_type := classifyPort port.kind
          description := describePort charEscape port.kind }))

/-!  server.rs: the process supervisor. -/

/-- The child handle stored in `ServerState.process` (a
`std::process::Child`), modelled by its OS process id. -/
abbrev Child := Nat

/-- Which termination path `stop_backend_server` takes: the source is
compiled either with `target_os = "windows"` or not. -/
inductive Platform where
  | windows
  | other
deriving DecidableEq

/-- Observable termination actions issued by the supervisor: the
fire-and-forget `taskkill /F /T /PID <id>` spawn on Windows, or the direct
`child.kill()` elsewhere. -/
inductive KillEvent where
  | taskkillTree (pid : Child)
  | kill (pid : Child)
deriving DecidableEq

/-- Environment of `start_backend_server_internal`: the outcome of
`get_server_path` (which inspects the build profile, the current
directory and the resource directory), the filesystem `exists` check,
and the outcome of `Command::new(...).spawn()`. -/
structure ServerEnv where
  serverPathResult : Except String String
  pathExists : String → Bool
  spawnResult : Except String Child

/-- server.rs `start_backend_server_internal`. Takes the current
`ServerState.process` slot; returns the command result, the slot after
the call, and the list of processes spawned by the call. If a server is
already recorded it returns success immediately without consulting the
environment. -/
def start_backend_server_internal (env : ServerEnv) (process : Option Child) :
    Except String String × Option Child × List Child :=
  match process with
  | some child => (Except.ok "Server is already running", some child, [])
  | none =>
    match env.serverPathResult with
    | Except.error e => (Except.error e, none, [])
    | Except.ok server_path =>
      if env.pathExists server_path then
        match env.spawnResult with
        | Except.error e =>
            (Except.error ("Failed to start server: " ++ e ++
              ". Make sure Node.js is installed."), none, [])
        | Except.ok child =>
            (Except.ok ("Server started successfully from " ++ server_path),
             some child, [child])
      else
        (Except.error ("Server directory not found at: " ++ server_path), none, [])

/-- server.rs `stop_backend_server`. `killResult` is the outcome of the
`child.kill()` call on non-Windows platforms. The slot is cleared by
`process.take()` before any kill is attempted, so it is empty afterwards
whatever happens; on Windows the taskkill is spawned fire-and-forget and
its outcome ignored. -/
def stop_backend_server (platform : Platform) (killResult : Except String Unit)
    (process : Option Child) :
    Except String String × Option Child × List KillEvent :=
  match process with
  | none => (Except.ok "Server was not running", none, [])
  | some child =>
    match platform with
    | Platform.windows =>
        (Except.ok "Server stopped successfully", none, [KillEvent.taskkillTree child])
    | Platform.other =>
        match killResult with
        | Except.error e =>
            (Except.error ("Failed to stop server: " ++ e), none, [KillEvent.kill child])
        | Except.ok _ =>
            (Except.ok "Server stopped successfully", none, [KillEvent.kill child])

/-- server.rs `get_server_status`: pure read of the slot. -/
def get_server_status (process : Option Child) : Except String String :=
  if process.isSome then Except.ok "running" else Except.ok "stopped"

/-!  Registry operation steps, for the at-most-one-session invariant. -/

/-- One user-visible registry operation, with the OS outcomes it consumes. -/
inductive RegistryOp where
  | listPorts (osPorts : Except String (List OsPortEntry))
  | openPort (osOpen : OpenRequest → Except String SerialHandle)
      (name : String) (config : SerialConfig)
  | closePort (name : String)
  | writeData (osWrite : List Nat → Except String Nat) (osFlush : Except String Unit)
      (name : String) (data : String)
  | readData (osRead : OsReadResult) (name : String) (buffer_size : Nat)

/-- The registry state after running one operation. `list_serial_ports`
never touches the registry, and `write_serial_data` / `read_serial_data`
only use `get_mut` on the stored handle, leaving the map unchanged. -/
def regStep (op : RegistryOp) (ports : PortMap) : PortMap :=
  match op with
  | RegistryOp.listPorts _ => ports
  | RegistryOp.openPort osOpen name config => (open_serial_port osOpen name config ports).2
  | RegistryOp.closePort name => (close_serial_port name ports).2
  | RegistryOp.writeData _ _ _ _ => ports
  | RegistryOp.readData _ _ _ => ports

/-- The registry invariant: each port name keys at most one session. -/
def regInv (ports : PortMap) : Prop :=
  (ports.map Prod.fst).Nodup

instance (ports : PortMap) : Decidable (regInv ports) := by
  unfold regInv
  infer_instance

/-!  Helper lemmas about the registry map. -/

theorem containsKey_iff (ports : PortMap) (name : String) :
    containsKey ports name = true ↔ name ∈ ports.map Prod.fst := by
  simp only [containsKey, List.any_eq_true, decide_eq_true_eq, List.mem_map]

theorem containsKey_cons_self (ports : PortMap) (p : String) (h : SerialHandle) :
    containsKey ((p, h) :: ports) p = true := by
  simp [containsKey]

theorem open_success_state (osOpen : OpenRequest → Except String SerialHandle)
    (p : String) (cfg : SerialConfig) (ports : PortMap) (handle : SerialHandle)
    (habs : containsKey ports p = false)
    (hok : osOpen (buildOpenRequest p cfg) = Except.ok handle) :
    (open_serial_port osOpen p cfg ports).2 = (p, handle) :: ports := by
  simp [open_serial_port, habs, hok, hmInsert]

/-- C1: opening a port name that is already registered fails with the
duplicate-session error and leaves the registry untouched; in particular,
after a successful open of `p`, a second open of `p` without an
intervening close fails this way. -/
theorem open_duplicate_session :
    (∀ (osOpen : OpenRequest → Except String SerialHandle) (p : String)
        (cfg : SerialConfig) (ports : PortMap),
      containsKey ports p = true →
      open_serial_port osOpen p cfg ports = (Except.error "Port is already open", ports)) ∧
    (∀ (osOpen osOpen2 : OpenRequest → Except String SerialHandle) (p : String)
        (cfg cfg2 : SerialConfig) (ports : PortMap) (handle : SerialHandle),
      containsKey ports p = false →
      osOpen (buildOpenRequest p cfg) = Except.ok handle →
      open_serial_port osOpen2 p cfg2 (open_serial_port osOpen p cfg ports).2 =
        (Except.error "Port is already open", (open_serial_port osOpen p cfg ports).2)) := by
  constructor
  · intro osOpen p cfg ports hdup
    simp [open_serial_port, hdup]
  · intro osOpen osOpen2 p cfg cfg2 ports handle habs hok
    rw [open_success_state osOpen p cfg ports handle habs hok]
    simp [open_serial_port, containsKey_cons_self]

/-- C1 witness: a concrete second open on an already-registered name. -/
theorem open_duplicate_session_witness :
    open_serial_port (fun _ => Except.ok 7) "COM3" ⟨9600, 8, 1, "none"⟩ [("COM3", 1)] =
      (Except.error "Port is already open", [("COM3", 1)]) :=
  open_duplicate_session.1 (fun _ => Except.ok 7) "COM3" ⟨9600, 8, 1, "none"⟩
    [("COM3", 1)] (by decide)

/-- C2: the config translation is deterministic with fallbacks: parity
strings outside none/odd/even map to `Parity.none`, stop_bits outside
1/2 maps to `StopBits.one`, data_bits outside 5/6/7/8 maps to
`DataBits.eight`, and recognized values map to their enumerated settings. -/
theorem config_fallback_policy :
    (toParity "none" = Parity.none ∧ toParity "odd" = Parity.odd ∧
      toParity "even" = Parity.even ∧
      ∀ s : String, s ≠ "none" → s ≠ "odd" → s ≠ "even" → toParity s = Parity.none) ∧
    (toStopBits 1 = StopBits.one ∧ toStopBits 2 = StopBits.two ∧
      ∀ n : Nat, n ≠ 1 → n ≠ 2 → toStopBits n = StopBits.one) ∧
    (toDataBits 5 = DataBits.five ∧ toDataBits 6 = DataBits.six ∧
      toDataBits 7 = DataBits.seven ∧ toDataBits 8 = DataBits.eight ∧
      ∀ n : Nat, n ≠ 5 → n ≠ 6 → n ≠ 7 → n ≠ 8 → toDataBits n = DataBits.eight) := by
  refine ⟨⟨rfl, rfl, rfl, ?_⟩, ⟨rfl, rfl, ?_⟩, ⟨rfl, rfl, rfl, rfl, ?_⟩⟩ <;>
    intros <;> simp_all [toParity, toStopBits, toDataBits]

/-- C2 witness: the fallback triple from the spec, parity "xyz",
stop_bits 3 and data_bits 9. -/
theorem config_fallback_policy_witness :
    toParity "xyz" = Parity.none ∧ toStopBits 3 = StopBits.one ∧
      toDataBits 9 = DataBits.eight := by
  refine ⟨?_, ?_, ?_⟩
  · exact config_fallback_policy.1.2.2.2 "xyz" (by decide) (by decide) (by decide)
  · exact config_fallback_policy.2.1.2.2 3 (by decide) (by decide)
  · exact config_fallback_policy.2.2.2.2.2.2 9 (by decide) (by decide) (by decide) (by decide)

/-- C10: whenever open returns an error (duplicate session or OS-level
open failure), the registry is exactly as it was before the call. -/
theorem open_error_preserves_registry :
    ∀ (osOpen : OpenRequest → Except String SerialHandle) (p : String)
      (cfg : SerialConfig) (ports : PortMap) (e : String),
      (open_serial_port osOpen p cfg ports).1 = Except.error e →
      (open_serial_port osOpen p cfg ports).2 = ports := by
  intro osOpen p cfg ports e herr
  cases hc : containsKey ports p with
  | true => simp [open_serial_port, hc]
  | false =>
    cases ho : osOpen (buildOpenRequest p cfg) with
    | error e2 => simp [open_serial_port, hc, ho]
    | ok handle => simp [open_serial_port, hc, ho] at herr

/-- C10 witness: a concrete OS-level open failure on an empty registry. -/
theorem open_error_preserves_registry_witness :
    (open_serial_port (fun _ => Except.error "no such device") "COM9"
      ⟨9600, 8, 1, "none"⟩ []).2 = [] :=
  open_error_preserves_registry (fun _ => Except.error "no such device") "COM9"
    ⟨9600, 8, 1, "none"⟩ [] "Failed to open port: no such device" rfl

/-- C3: on an open port, a timed-out OS read is returned as an empty
success, any other OS read failure is reported as a read error carrying
the underlying reason, and a successful OS read yields exactly the bytes
actually read, decoded as UTF-8 with lossy replacement. -/
theorem read_timeout_empty_success (p : String) (n : Nat) (ports : PortMap)
    (hopen : containsKey ports p = true) :
    read_serial_data OsReadResult.timedOut p n ports = Except.ok "" ∧
    (∀ e : String, read_serial_data (OsReadResult.err e) p n ports =
      Except.error ("Failed to read from port: " ++ e)) ∧
    (∀ data : List Nat, read_serial_data (OsReadResult.ok data) p n ports =
      Except.ok (utf8Lossy data)) := by
  refine ⟨?_, ?_, ?_⟩
  · simp [read_serial_data, hopen]
  · intro e
    simp [read_serial_data, hopen]
  · intro data
    simp [read_serial_data, hopen, List.take_left]

/-- C3 witness: concrete reads on an open port, one timing out, one
failing, one returning the bytes of "Hi". -/
theorem read_timeout_empty_success_witness :
    read_serial_data OsReadResult.timedOut "COM3" 64 [("COM3", 0)] = Except.ok "" ∧
    read_serial_data (OsReadResult.err "device unplugged") "COM3" 64 [("COM3", 0)] =
      Except.error ("Failed to read from port: " ++ "device unplugged") ∧
    read_serial_data (OsReadResult.ok [72, 105]) "COM3" 64 [("COM3", 0)] =
      Except.ok (utf8Lossy [72, 105]) := by
  have h := read_timeout_empty_success "COM3" 64 [("COM3", 0)] (by decide)
  exact ⟨h.1, h.2.1 "device unplugged", h.2.2 [72, 105]⟩

/-- C4: start is idempotent: on a Running record it succeeds immediately,
leaves the stored record unchanged and spawns nothing; two consecutive
starts (the first spawning successfully) both succeed and leave exactly
one live process. -/
theorem start_idempotent :
    (∀ (env : ServerEnv) (c : Child),
      start_backend_server_internal env (some c) =
        (Except.ok "Server is already running", some c, [])) ∧
    (∀ (env : ServerEnv) (path : String) (c : Child),
      env.serverPathResult = Except.ok path →
      env.pathExists path = true →
      env.spawnResult = Except.ok c →
      start_backend_server_internal env none =
        (Except.ok ("Server started successfully from " ++ path), some c, [c]) ∧
      start_backend_server_internal env
          (start_backend_server_internal env none).2.1 =
        (Except.ok "Server is already running", some c, [])) := by
  constructor
  · intro env c
    rfl
  · intro env path c hpath hexists hspawn
    have h1 : start_backend_server_internal env none =
        (Except.ok ("Server started successfully from " ++ path), some c, [c]) := by
      simp [start_backend_server_internal, hpath, hexists, hspawn]
    refine ⟨h1, ?_⟩
    rw [h1]
    rfl

/-- C4 witness: a concrete environment in which the first start spawns
pid 42 and the second start is a no-op success. -/
theorem start_idempotent_witness :
    start_backend_server_internal ⟨Except.ok "/srv", fun _ => true, Except.ok 42⟩ none =
      (Except.ok ("Server started successfully from " ++ "/srv"), some 42, [42]) ∧
    start_backend_server_internal ⟨Except.ok "/srv", fun _ => true, Except.ok 42⟩
        (start_backend_server_internal
          ⟨Except.ok "/srv", fun _ => true, Except.ok 42⟩ none).2.1 =
      (Except.ok "Server is already running", some 42, []) :=
  start_idempotent.2 ⟨Except.ok "/srv", fun _ => true, Except.ok 42⟩ "/srv" 42 rfl rfl rfl

/-- C5: stop on a Stopped record is an idempotent success, and every stop
call clears the stored record regardless of the kill outcome, so status
reports "stopped" after any stop returns. -/
theorem stop_idempotent_and_clears :
    (∀ (platform : Platform) (killResult : Except String Unit),
      stop_backend_server platform killResult none =
        (Except.ok "Server was not running", none, [])) ∧
    (∀ (platform : Platform) (killResult : Except String Unit) (process : Option Child),
      (stop_backend_server platform killResult process).2.1 = none) ∧
    (∀ (platform : Platform) (killResult : Except String Unit) (process : Option Child),
      get_server_status (stop_backend_server platform killResult process).2.1 =
        Except.ok "stopped") := by
  refine ⟨fun platform killResult => rfl, ?_, ?_⟩ <;>
    intro platform killResult process <;>
    cases process with
    | none => rfl
    | some child =>
      cases platform with
      | windows => rfl
      | other => cases killResult <;> rfl

/-- C6: every registry operation preserves the at-most-one-session-per-name
invariant, and any sequence of operations run from the initial empty
registry maintains it. -/
theorem registry_at_most_one_session :
    (∀ (op : RegistryOp) (ports : PortMap), regInv ports → regInv (regStep op ports)) ∧
    (∀ ops : List RegistryOp, regInv (ops.foldl (fun s op => regStep op s) [])) := by
  have hstep : ∀ (op : RegistryOp) (ports : PortMap),
      regInv ports → regInv (regStep op ports) := by
    intro op ports hinv
    cases op with
    | listPorts osPorts => exact hinv
    | writeData osWrite osFlush name data => exact hinv
    | readData osRead name n => exact hinv
    | closePort name =>
      have hsub : ((close_serial_port name ports).2.map Prod.fst).Sublist
          (ports.map Prod.fst) := by
        unfold close_serial_port
        by_cases hc : containsKey ports name = true
        · rw [if_pos hc]
          exact (List.filter_sublist ports).map Prod.fst
        · rw [if_neg hc]
      exact hinv.sublist hsub
    | openPort osOpen name config =>
      show regInv ((open_serial_port osOpen name config ports).2)
      by_cases hc : containsKey ports name = true
      · have hsame : (open_serial_port osOpen name config ports).2 = ports := by
          simp [open_serial_port, hc]
        rw [hsame]
        exact hinv
      · have habs : containsKey ports name = false := by
          cases h : containsKey ports name with
          | true => exact absurd h hc
          | false => rfl
        cases ho : osOpen (buildOpenRequest name config) with
        | error e =>
          have hsame : (open_serial_port osOpen name config ports).2 = ports := by
            simp [open_serial_port, habs, ho]
          rw [hsame]
          exact hinv
        | ok handle =>
          have hstate : (open_serial_port osOpen name config ports).2 =
              (name, handle) :: ports :=
            open_success_state osOpen name config ports handle habs ho
          have hnotin : name ∉ ports.map Prod.fst := fun hmem =>
            hc ((containsKey_iff ports name).mpr hmem)
          rw [hstate]
          exact List.nodup_cons.mpr ⟨hnotin, hinv⟩
  refine ⟨hstep, ?_⟩
  intro ops
  have hgen : ∀ s : PortMap, regInv s →
      regInv (ops.foldl (fun t op => regStep op t) s) := by
    induction ops with
    | nil => intro s hs; exact hs
    | cons op rest ih =>
      intro s hs
      exact ih (regStep op s) (hstep op s hs)
  exact hgen [] (by simp [regInv])

/-- C6 witness: a concrete operation applied to a concrete registry
satisfying the invariant. -/
theorem registry_at_most_one_session_witness :
    regInv (regStep (RegistryOp.closePort "COM3") [("COM3", 0), ("COM4", 1)]) :=
  registry_at_most_one_session.1 (RegistryOp.closePort "COM3")
    [("COM3", 0), ("COM4", 1)] (by decide)

/-- C7: write on an unregistered name fails with the not-open error; on an
open port the full byte buffer of the data is handed to the OS write,
whose failure (or a failure of the explicit flush that follows) is
reported as an error; on success the count accepted by the write call is
returned unchanged by the flush, even when it is less than the buffer
length. -/
theorem write_flush_and_count :
    (∀ (osWrite : List Nat → Except String Nat) (osFlush : Except String Unit)
        (p data : String) (ports : PortMap),
      containsKey ports p = false →
      write_serial_data osWrite osFlush p data ports = Except.error "Port not open") ∧
    (∀ (osWrite : List Nat → Except String Nat) (osFlush : Except String Unit)
        (p data : String) (ports : PortMap) (e : String),
      containsKey ports p = true →
      osWrite (strBytes data) = Except.error e →
      write_serial_data osWrite osFlush p data ports =
        Except.error ("Failed to write to port: " ++ e)) ∧
    (∀ (osWrite : List Nat → Except String Nat) (p data : String)
        (ports : PortMap) (w : Nat) (e : String),
      containsKey ports p = true →
      osWrite (strBytes data) = Except.ok w →
      write_serial_data osWrite (Except.error e) p data ports =
        Except.error ("Failed to flush port: " ++ e)) ∧
    (∀ (osWrite : List Nat → Except String Nat) (p data : String)
        (ports : PortMap) (w : Nat),
      containsKey ports p = true →
      osWrite (strBytes data) = Except.ok w →
      write_serial_data osWrite (Except.ok ()) p data ports = Except.ok w) := by
  refine ⟨?_, ?_, ?_, ?_⟩
  · intro osWrite osFlush p data ports habs
    simp [write_serial_data, habs]
  · intro osWrite osFlush p data ports e hopen hw
    simp [write_serial_data, hopen, hw]
  · intro osWrite p data ports w e hopen hw
    simp [write_serial_data, hopen, hw]
  · intro osWrite p data ports w hopen hw
    simp [write_serial_data, hopen, hw]

/-- C7 witness: a concrete partial write of 2 of the 4 bytes of the data,
followed by a successful flush, returns 2. -/
theorem write_flush_and_count_witness :
    write_serial_data (fun _ => Except.ok 2) (Except.ok ()) "COM3" "AT\r\n"
      [("COM3", 0)] = Except.ok 2 :=
  write_flush_and_count.2.2.2 (fun _ => Except.ok 2) "COM3" "AT\r\n"
    [("COM3", 0)] 2 (by decide) rfl

/-- C8: the baud rate catalog is the fixed list of standard rates from 300
through 921600, and the open request passes the supplied baud rate to the
OS driver verbatim for every configuration, without consulting the
catalog. -/
theorem baud_catalog_advisory :
    get_available_baud_rates =
      [300, 1200, 2400, 4800, 9600, 19200, 38400, 57600, 115200, 230400, 460800, 921600] ∧
    ∀ (p : String) (cfg : SerialConfig),
      (buildOpenRequest p cfg).baudRate = cfg.baud_rate :=
  ⟨rfl, fun _ _ => rfl⟩

/-- C9 counterexample: for a USB port whose manufacturer is "Acme" the
description produced by list is the formatted string
"USB Device - Manufacturer: \"Acme\"", not the bare manufacturer string.
"Acme" is pure printable ASCII, on which `asciiEscapeDebug` agrees with
the standard library's `char::escape_debug` character for character. -/
theorem usb_description_counterexample :
    list_serial_ports asciiEscapeDebug
        (Except.ok [⟨"/dev/ttyUSB0", SerialPortKind.usbPort (some "Acme")⟩]) =
      Except.ok [⟨"/dev/ttyUSB0", "USB", some "USB Device - Manufacturer: \"Acme\""⟩] ∧
    some "USB Device - Manufacturer: \"Acme\"" ≠ some "Acme" := by
  constructor
  · rfl
  · decide

/-- C9 amended: every descriptor returned by list is classified as one of
USB, Bluetooth, PCI, Unknown; a description is present exactly for USB
devices, and it is the fixed text "USB Device - Manufacturer: " followed
by the manufacturer string — or the literal "Unknown" when the
manufacturer is absent — in Rust Debug form, wrapped in double quotes
with each character rendered by `char::escape_debug`; non-USB
descriptors carry no description. Proved for every per-character escape
function, so in particular for the standard library's. -/
theorem usb_description_amended :
    (∀ (charEscape : Char → List Char) (entries : List OsPortEntry),
      list_serial_ports charEscape (Except.ok entries) =
        Except.ok (entries.map (fun e =>
          { name := e.port_name
            port_type := classifyPort e.kind
            description := describePort charEscape e.kind }))) ∧
    (∀ k : SerialPortKind,
      classifyPort k = "USB" ∨ classifyPort k = "Bluetooth" ∨
        classifyPort k = "PCI" ∨ classifyPort k = "Unknown") ∧
    (∀ (charEscape : Char → List Char) (k : SerialPortKind),
      (describePort charEscape k).isSome = true ↔ ∃ m, k = SerialPortKind.usbPort m) ∧
    (∀ (charEscape : Char → List Char) (m : String),
      describePort charEscape (SerialPortKind.usbPort (some m)) =
        some ("USB Device - Manufacturer: " ++ debugFmt charEscape m)) ∧
    (∀ charEscape : Char → List Char,
      describePort charEscape (SerialPortKind.usbPort Option.none) =
        some ("USB Device - Manufacturer: " ++ debugFmt charEscape "Unknown")) := by
  refine ⟨fun charEscape entries => rfl, ?_, ?_, fun charEscape m => rfl,
    fun charEscape => rfl⟩
  · intro k
    cases k <;> simp [classifyPort]
  · intro charEscape k
    cases k <;> simp [describePort]

end Djaja
